import Mathlib

/-!
Verification of the HerLang runtime core: a shallow embedding of the
memory-safety, cooperative-threading and shared-state components
(`error_system.hpp` / advanced memory section, `cooperative_threading.hpp`,
`shared_state.hpp`), with theorems checking the stated contracts.

Machine arithmetic: the C++ code computes sizes and offsets in `size_t`.
We model `size_t` values as natural numbers below `WORD = 2 ^ 64` and make
every arithmetic step that C++ performs in `size_t` explicit with `% WORD`,
so that wrap-around behaves exactly as in the source.

Floating-point stress levels are modelled as rationals; the claims under
study only compare stress against constant thresholds (0.6, 0.8), which the
rational model reflects faithfully.

Time-dependent quantities (durations since the last break, lifetimes) are
modelled as explicit state components or parameters, since the embedding is
of the state-transforming behaviour, not of the clock.
-/

namespace HerLang

/-! ## error_system.hpp -/

inductive HerErrorType where
  | SyntaxError
  | TypeError
  | MemoryError
  | RuntimeError
  | UnexpectedToken
  | UndefinedFunction
  | InvalidArgument
deriving DecidableEq, Repr

structure HerLangError where
  error_type : HerErrorType
  message : String
  context : String := ""
  suggestions : List String := []
deriving DecidableEq, Repr

def HerLangError.with_context (e : HerLangError) (ctx : String) : HerLangError :=
  { e with context := ctx }

def HerLangError.with_suggestion (e : HerLangError) (s : String) : HerLangError :=
  { e with suggestions := e.suggestions ++ [s] }

/-! ## advanced memory section (SafeMemoryBlock, BoundaryGuardedPtr,
      AdvancedMemoryManager, GentleGarbageCollector) -/

/-- `size_t` arithmetic is modulo `2 ^ 64`. -/
def WORD : Nat := 18446744073709551616

/-- `MAX_ALLOCATION = 1ULL * 1024 * 1024 * 1024` (1 GiB). -/
def MAX_ALLOCATION : Nat := 1073741824

/-- Memory block metadata.  The C++ struct also records alignment,
allocation time, a reference count and a protection flag; none of the
claims under study mention them, and no operation we embed reads them. -/
structure SafeMemoryBlock where
  size : Nat
  allocation_context : String := ""
deriving DecidableEq, Repr

/-- `check_access(offset, access_size)`: `offset + access_size <= size`,
computed in `size_t` (the sum wraps modulo `WORD`). -/
def SafeMemoryBlock.check_access (b : SafeMemoryBlock) (offset access_size : Nat) : Bool :=
  decide ((offset + access_size) % WORD ≤ b.size)

/-- The error thrown by `BoundaryGuardedPtr::operator[]`. -/
def outOfBoundsError : HerLangError :=
  ({ error_type := .MemoryError, message := "Array access out of bounds" } : HerLangError
    ).with_suggestion "Check array size before accessing"
     |>.with_suggestion "Use safe_at() method for bounds-checked access"
     |>.with_context "Boundary-guarded pointer access"

/-- Boundary-guarded pointer.  `sizeofT` is `sizeof(T)`; `mem i` models the
raw memory contents `ptr[i]` at element index `i` (for indices inside the
block this is the stored element; reading outside the block is the
undefined behaviour the guard is supposed to prevent). -/
structure BoundaryGuardedPtr (α : Type) where
  sizeofT : Nat
  block_info : Option SafeMemoryBlock
  mem : Nat → α

/-- `operator[]`: throws unless `block_info` is present and
`check_access(index * sizeof(T), sizeof(T))` passes; the offset
multiplication is `size_t` arithmetic, hence `% WORD`. -/
def BoundaryGuardedPtr.index (p : BoundaryGuardedPtr α) (i : Nat) :
    Except HerLangError α :=
  match p.block_info with
  | none => .error outOfBoundsError
  | some b =>
    if b.check_access (i * p.sizeofT % WORD) p.sizeofT then .ok (p.mem i)
    else .error outOfBoundsError

/-- `safe_at`: same check as `operator[]`, returning `none` instead of
throwing. -/
def BoundaryGuardedPtr.safe_at (p : BoundaryGuardedPtr α) (i : Nat) : Option α :=
  match p.block_info with
  | none => none
  | some b =>
    if b.check_access (i * p.sizeofT % WORD) p.sizeofT then some (p.mem i)
    else none

/-- `size()`: `block_info->size / sizeof(T)`, or 0 without a block. -/
def BoundaryGuardedPtr.size (p : BoundaryGuardedPtr α) : Nat :=
  match p.block_info with
  | none => 0
  | some b => b.size / p.sizeofT

/-- The allocator's registry: `protected_blocks` maps addresses to blocks.
The C++ `std::unordered_map` is modelled as an association list with
map-assignment semantics (insert overwrites any entry with the same key). -/
structure AdvancedMemoryManager where
  protected_blocks : List (Nat × SafeMemoryBlock) := []
deriving DecidableEq, Repr

def AdvancedMemoryManager.empty : AdvancedMemoryManager := {}

def allocLimitError : HerLangError :=
  ({ error_type := .MemoryError, message := "Allocation size exceeds safety limit" } : HerLangError
    ).with_suggestion "Reduce allocation size"
     |>.with_suggestion "Use streaming or chunked processing"
     |>.with_context "Memory allocation safety check"

def allocFailedError : HerLangError :=
  ({ error_type := .MemoryError, message := "Memory allocation failed" } : HerLangError
    ).with_suggestion "Reduce memory usage"
     |>.with_suggestion "Check system memory availability"
     |>.with_context "Memory allocation"

/-- `allocate<T>(count, context)`.  `sizeofT` is `sizeof(T)`; the product
`count * sizeof(T)` is computed in `size_t`, hence `% WORD`.  The result of
`std::aligned_alloc` is environment-determined, so it enters as the
parameter `sys`: `none` models a null return, `some addr` a successful
allocation at address `addr` whose contents are `mem`. -/
def AdvancedMemoryManager.allocate (m : AdvancedMemoryManager)
    (sizeofT count : Nat) (sys : Option Nat) (context : String) (mem : Nat → α) :
    Except HerLangError (BoundaryGuardedPtr α × AdvancedMemoryManager) :=
  let total_size := count * sizeofT % WORD
  if MAX_ALLOCATION < total_size then
    .error allocLimitError
  else
    match sys with
    | none => .error allocFailedError
    | some addr =>
      let block : SafeMemoryBlock := { size := total_size, allocation_context := context }
      .ok (⟨sizeofT, some block, mem⟩,
           ⟨(addr, block) :: m.protected_blocks.eraseP (fun e => e.1 == addr)⟩)

/-- `deallocate(ptr)`: erase the entry found for `ptr`, if any. -/
def AdvancedMemoryManager.deallocate (m : AdvancedMemoryManager) (ptr : Nat) :
    AdvancedMemoryManager :=
  ⟨m.protected_blocks.eraseP (fun e => e.1 == ptr)⟩

/-- Memory usage statistics.  `oldest_allocation` is a clock-derived field
read from no claim under study; it is omitted from the embedding. -/
structure MemoryStats where
  total_allocated : Nat
  block_count : Nat
  largest_block : Nat
deriving DecidableEq, Repr

/-- `get_stats()`: a full scan of the registry, exactly as the C++ loop. -/
def AdvancedMemoryManager.get_stats (m : AdvancedMemoryManager) : MemoryStats :=
  { total_allocated := m.protected_blocks.foldl (fun acc e => acc + e.2.size) 0
    block_count := m.protected_blocks.length
    largest_block := m.protected_blocks.foldl (fun acc e => max acc e.2.size) 0 }

/-- `MAX_CLEANUP_PER_CYCLE = 10`. -/
def MAX_CLEANUP_PER_CYCLE : Nat := 10

/-- `GentleGarbageCollector::perform_incremental_cleanup`: reads the stats,
computes a per-cycle budget (doubled above 100 MiB), and — as the source
comment states — performs no actual cleanup (it only sleeps).  The returned
manager is the input manager; the budget is returned so the computation is
not erased. -/
def perform_incremental_cleanup (m : AdvancedMemoryManager) :
    AdvancedMemoryManager × Nat :=
  let stats := m.get_stats
  let max_cleanup :=
    if 100 * 1024 * 1024 < stats.total_allocated then MAX_CLEANUP_PER_CYCLE * 2
    else MAX_CLEANUP_PER_CYCLE
  (m, max_cleanup)

/-! ## cooperative_threading.hpp -/

/-- `MAX_CONSECUTIVE_TASKS = 50`. -/
def MAX_CONSECUTIVE_TASKS : Nat := 50

/-- `MAX_WORK_DURATION = std::chrono::hours(2)`, in minutes. -/
def MAX_WORK_DURATION : ℚ := 120

/-- `MAX_STRESS_LEVEL = 0.8f`. -/
def MAX_STRESS_LEVEL : ℚ := mkRat 4 5

/-- `STRESS_THRESHOLD = 0.6f` (pool-wide). -/
def STRESS_THRESHOLD : ℚ := mkRat 3 5

/-- One worker: its wellness metrics plus its private task queue.  Tasks
are identifiers (`Nat`).  `work_duration` is the elapsed time since
`last_break` in minutes (the clock subtraction `now - last_break` made
explicit state). -/
structure CooperativeWorker where
  consecutive_tasks : Nat := 0
  stress_level : ℚ := 0
  work_duration : ℚ := 0
  total_tasks_completed : Nat := 0
  queue : List Nat := []
deriving DecidableEq, Repr

/-- `WorkerWellness::needs_mandatory_break`. -/
def CooperativeWorker.needs_mandatory_break (w : CooperativeWorker) : Bool :=
  decide (MAX_CONSECUTIVE_TASKS ≤ w.consecutive_tasks) ||
  decide (MAX_WORK_DURATION ≤ w.work_duration) ||
  decide (MAX_STRESS_LEVEL ≤ w.stress_level)

/-- `WorkerWellness::take_wellness_break`: halve stress, reset the
consecutive counter, stamp `last_break = now` (so the elapsed duration
drops to 0). -/
def CooperativeWorker.take_wellness_break (w : CooperativeWorker) : CooperativeWorker :=
  { w with stress_level := w.stress_level * mkRat 1 2
           consecutive_tasks := 0
           work_duration := 0 }

/-- `WorkerWellness::record_task_completion`: bump both counters; raise
stress by 0.1 (capped at 1) when less than a minute has passed since the
last break, otherwise lower it by 0.05 (floored at 0). -/
def CooperativeWorker.record_task_completion (w : CooperativeWorker) : CooperativeWorker :=
  { w with consecutive_tasks := w.consecutive_tasks + 1
           total_tasks_completed := w.total_tasks_completed + 1
           stress_level :=
             if w.work_duration < 1 then min 1 (w.stress_level + mkRat 1 10)
             else max 0 (w.stress_level - mkRat 1 20) }

/-- `CooperativeWorker::try_assign_task`: refuse (no enqueue) when a
mandatory break is needed, otherwise push the task. -/
def CooperativeWorker.try_assign_task (w : CooperativeWorker) (task : Nat) :
    Bool × CooperativeWorker :=
  if w.needs_mandatory_break then (false, w)
  else (true, { w with queue := w.queue ++ [task] })

/-- The pool: workers in construction order plus the round-robin counter. -/
structure CooperativeThreadPool where
  workers : List CooperativeWorker := []
  round_robin_counter : Nat := 0
deriving DecidableEq, Repr

/-- The loop of `find_optimal_worker`: scan the workers in order, keeping
the index of the worker with the lowest stress strictly below both the
running minimum (initially `1.0f`) and `STRESS_THRESHOLD`. -/
def findBestWorkerAux : List CooperativeWorker → Nat → Option Nat → ℚ → Option Nat
  | [], _, best, _ => best
  | w :: ws, i, best, lowest =>
    if w.stress_level < lowest ∧ w.stress_level < STRESS_THRESHOLD then
      findBestWorkerAux ws (i + 1) (some i) w.stress_level
    else
      findBestWorkerAux ws (i + 1) best lowest

def findBestWorker (ws : List CooperativeWorker) : Option Nat :=
  findBestWorkerAux ws 0 none 1

/-- `CooperativeThreadPool::find_optimal_worker`, returning the index of
the chosen worker (if any) and the pool (the round-robin counter is
post-incremented only on the fallback path). -/
def CooperativeThreadPool.find_optimal_worker (p : CooperativeThreadPool) :
    Option Nat × CooperativeThreadPool :=
  match findBestWorker p.workers with
  | some i => (some i, p)
  | none =>
    if p.workers.isEmpty then (none, p)
    else (some (p.round_robin_counter % p.workers.length),
          { p with round_robin_counter := p.round_robin_counter + 1 })

def overwhelmedError : HerLangError :=
  ({ error_type := .RuntimeError, message := "All workers are overwhelmed and need rest" } : HerLangError
    ).with_suggestion "Reduce task submission rate"
     |>.with_suggestion "Wait for workers to complete their wellness breaks"
     |>.with_context "Thread pool task submission"

def wellnessRefusedError : HerLangError :=
  ({ error_type := .RuntimeError, message := "Could not assign task - worker needs wellness break" } : HerLangError
    ).with_suggestion "Retry after a short delay"
     |>.with_context "Worker wellness protection"

/-- `CooperativeThreadPool::submit_with_care` (the future plumbing is
elided; the task is its identifier): pick a worker via
`find_optimal_worker`, fail with `overwhelmedError` if none, otherwise
`try_assign_task` and fail with `wellnessRefusedError` if the worker
refuses. -/
def CooperativeThreadPool.submit_with_care (p : CooperativeThreadPool) (task : Nat) :
    Except HerLangError Unit × CooperativeThreadPool :=
  match p.find_optimal_worker with
  | (none, p1) => (.error overwhelmedError, p1)
  | (some i, p1) =>
    let w := p1.workers.getD i {}
    match w.try_assign_task task with
    | (true, w1) => (.ok (), { p1 with workers := p1.workers.set i w1 })
    | (false, _) => (.error wellnessRefusedError, p1)

/-! ## shared_state.hpp : ProtectedSharedState -/

/-- Protected shared cell.  `creation_time` is an abstract timestamp;
`get_stats` takes the current time as a parameter. -/
structure ProtectedSharedState (α : Type) where
  data : α
  state_name : String := "shared_state"
  read_count : Nat := 0
  write_count : Nat := 0
  creation_time : Nat := 0
deriving DecidableEq, Repr

/-- `safe_read(reader)`.  The reader may throw (modelled as
`Except HerLangError β`).  The source increments `read_count`, invokes the
reader and, on the normal path, returns its value directly — the trailing
`read_count--` after the try/catch is unreachable, so a successful read
leaves the counter incremented; the catch path decrements it back and
rethrows. -/
def ProtectedSharedState.safe_read (c : ProtectedSharedState α)
    (reader : α → Except HerLangError β) :
    Except HerLangError β × ProtectedSharedState α :=
  let c1 := { c with read_count := c.read_count + 1 }
  match reader c1.data with
  | .ok b => (.ok b, c1)
  | .error e => (.error e, { c1 with read_count := c1.read_count - 1 })

/-- `safe_write(writer)`.  The writer gets mutable access to the value and
may throw; it is modelled as returning its (possibly error) result together
with the final value of the data.  The source increments `write_count` and
decrements it again on both the normal return path and the catch path. -/
def ProtectedSharedState.safe_write (c : ProtectedSharedState α)
    (writer : α → Except HerLangError β × α) :
    Except HerLangError β × ProtectedSharedState α :=
  let c1 := { c with write_count := c.write_count + 1 }
  match writer c1.data with
  | (.ok b, d) =>
    (.ok b, { c1 with data := d, write_count := c1.write_count - 1 })
  | (.error e, d) =>
    (.error e, { c1 with data := d, write_count := c1.write_count - 1 })

/-- `optimistic_update`'s retry loop.  `interf attempt` is the combined
effect of all concurrent mutation during attempt `attempt`'s unlocked
window (between the snapshot and the commit check); with no concurrent
mutation it is the identity.  Returns (committed?, final data, attempts
used). -/
def optimisticLoop [DecidableEq α] (updater : α → α) (interf : Nat → α → α) :
    α → Nat → Nat → Bool × α × Nat
  | d, attempt, 0 => (false, d, attempt)
  | d, attempt, n + 1 =>
    let local_copy := d
    let updated := updater local_copy
    let d1 := interf attempt d
    if d1 = local_copy then (true, updated, attempt + 1)
    else optimisticLoop updater interf d1 (attempt + 1) n

/-- `optimistic_update(updater, max_retries = 3)`: on commit, the data is
replaced and `write_count` incremented; otherwise the data is whatever the
concurrent writers left.  Returns (committed?, attempts used) with the
resulting cell. -/
def ProtectedSharedState.optimistic_update [DecidableEq α]
    (c : ProtectedSharedState α) (updater : α → α) (interf : Nat → α → α)
    (max_retries : Nat := 3) : (Bool × Nat) × ProtectedSharedState α :=
  match optimisticLoop updater interf c.data 0 max_retries with
  | (true, d, attempts) =>
    ((true, attempts), { c with data := d, write_count := c.write_count + 1 })
  | (false, d, attempts) =>
    ((false, attempts), { c with data := d })

/-- `AccessStats` as returned by `get_stats`. -/
structure AccessStats where
  name : String
  total_reads : Nat
  total_writes : Nat
  lifetime : Nat
  current_readers : Nat
deriving DecidableEq, Repr

/-- `get_stats()`, with the current time passed explicitly. -/
def ProtectedSharedState.get_stats (c : ProtectedSharedState α) (now : Nat) :
    AccessStats :=
  { name := c.state_name
    total_reads := c.read_count
    total_writes := c.write_count
    lifetime := now - c.creation_time
    current_readers := 0 }

/-! ## shared_state.hpp : DeadlockPrevention

Thread identities (`std::thread::id`) are modelled as naturals and passed
explicitly where the source calls `std::this_thread::get_id()`.  The
per-lock acquisition timestamps are never read by the operations under
study and are omitted; `lock_registry` keeps the owner. -/

structure DeadlockPrevention where
  held_locks : List (Nat × List String) := []
  lock_registry : List (String × Nat) := []
  lock_hierarchy : List (String × Nat) := []
  next_hierarchy_level : Nat := 0
deriving DecidableEq, Repr

/-- `register_lock_type(name)`: assign the next level to an unseen name. -/
def DeadlockPrevention.register_lock_type (d : DeadlockPrevention)
    (lock_name : String) : DeadlockPrevention :=
  match d.lock_hierarchy.lookup lock_name with
  | some _ => d
  | none =>
    { d with lock_hierarchy := (lock_name, d.next_hierarchy_level) :: d.lock_hierarchy
             next_hierarchy_level := d.next_hierarchy_level + 1 }

/-- `would_create_cycle(tid, target_lock)`: the target lock is owned by a
different thread and that thread holds some lock this thread also holds. -/
def DeadlockPrevention.would_create_cycle (d : DeadlockPrevention)
    (tid : Nat) (target_lock : String) : Bool :=
  match d.lock_registry.lookup target_lock with
  | none => false
  | some owner =>
    if owner ≠ tid then
      let other_locks := (d.held_locks.lookup owner).getD []
      let our_locks := (d.held_locks.lookup tid).getD []
      our_locks.any (fun l => other_locks.contains l)
    else false

/-- `can_acquire_safely(name)` for thread `tid`: unknown names are
registered and always safe; known names are refused when the thread holds
a lock of a strictly higher hierarchy level, else checked for a two-thread
mutual-hold cycle.  Returns the answer with the (possibly extended)
registry state. -/
def DeadlockPrevention.can_acquire_safely (d : DeadlockPrevention)
    (tid : Nat) (lock_name : String) : Bool × DeadlockPrevention :=
  match d.lock_hierarchy.lookup lock_name with
  | none => (true, d.register_lock_type lock_name)
  | some target_level =>
    let held := (d.held_locks.lookup tid).getD []
    if held.any (fun hl =>
        match d.lock_hierarchy.lookup hl with
        | some lvl => decide (target_level < lvl)
        | none => false) then
      (false, d)
    else
      (!(d.would_create_cycle tid lock_name), d)

/-- `held_locks[tid].push_back(name)` — map `operator[]`
default-constructs a missing entry. -/
def pushHeldLock : List (Nat × List String) → Nat → String → List (Nat × List String)
  | [], tid, name => [(tid, [name])]
  | (t, ls) :: rest, tid, name =>
    if t = tid then (t, ls ++ [name]) :: rest
    else (t, ls) :: pushHeldLock rest tid name

/-- `register_lock_acquisition(name)` for thread `tid`. -/
def DeadlockPrevention.register_lock_acquisition (d : DeadlockPrevention)
    (tid : Nat) (lock_name : String) : DeadlockPrevention :=
  { d with held_locks := pushHeldLock d.held_locks tid lock_name
           lock_registry :=
             (lock_name, tid) :: d.lock_registry.eraseP (fun e => e.1 == lock_name) }

/-- `register_lock_release(name)` for thread `tid`: remove every copy of
the name from the thread's held list and drop the registry entry. -/
def DeadlockPrevention.register_lock_release (d : DeadlockPrevention)
    (tid : Nat) (lock_name : String) : DeadlockPrevention :=
  { d with held_locks :=
             d.held_locks.map (fun e =>
               if e.1 = tid then (e.1, e.2.filter (fun l => l ≠ lock_name)) else e)
           lock_registry := d.lock_registry.eraseP (fun e => e.1 == lock_name) }

/-! ## Concrete fixtures used by witnesses and counterexamples -/

/-- Raw memory returning its own index, so out-of-block reads are visible. -/
def demoMem : Nat → Nat := fun i => i

/-- `allocate<T>(1, "demo")` with `sizeof(T) = 8` yields this handle: one
element, an 8-byte block. -/
def overflowHandle : BoundaryGuardedPtr Nat :=
  ⟨8, some { size := 8, allocation_context := "demo" }, demoMem⟩

/-! ## Theorems -/

/-- **C1** (code_bug).  The bounds check of `operator[]` and `safe_at`
computes `index * sizeof(T)` in `size_t`; for `sizeof(T) = 8` and
`index = 2 ^ 61` the product wraps to 0 and the check passes, so the
out-of-range index `2 ^ 61 ≥ size() = 1` is *not* rejected: `operator[]`
returns the (out-of-block) memory content instead of failing with a
Memory error, and `safe_at` returns a present value instead of `none`. -/
theorem index_bounds_overflow_bug :
    AdvancedMemoryManager.empty.allocate 8 1 (some 4096) "demo" demoMem
      = .ok (overflowHandle, ⟨[(4096, { size := 8, allocation_context := "demo" })]⟩)
    ∧ overflowHandle.size = 1
    ∧ overflowHandle.size ≤ 2305843009213693952
    ∧ overflowHandle.index 2305843009213693952 = .ok 2305843009213693952
    ∧ overflowHandle.safe_at 2305843009213693952 = some 2305843009213693952 := by
  refine ⟨rfl, rfl, by decide, rfl, rfl⟩

/-- **C5** (code_bug).  `allocate` computes `count * sizeof(T)` in
`size_t`; for `sizeof(T) = 8` and `count = 2 ^ 61` the product (2 ^ 64
bytes, far above the 1 GiB limit) wraps to 0, the safety-limit check
passes, and a block of recorded size 0 — not `count * sizeof(T)` — is
registered. -/
theorem allocate_size_overflow_bug :
    MAX_ALLOCATION < 2305843009213693952 * 8
    ∧ AdvancedMemoryManager.empty.allocate 8 2305843009213693952 (some 512) "big" demoMem
        = .ok (⟨8, some { size := 0, allocation_context := "big" }, demoMem⟩,
               ⟨[(512, { size := 0, allocation_context := "big" })]⟩) := by
  exact ⟨by decide, rfl⟩

/-- **C9** (confirmed).  A reclaimer cleanup cycle reclaims nothing: the
allocator state returned by `perform_incremental_cleanup` is the input
state, so the registry and all memory statistics are unchanged. -/
theorem incremental_cleanup_preserves_registry (m : AdvancedMemoryManager) :
    (perform_incremental_cleanup m).1 = m
    ∧ (perform_incremental_cleanup m).1.protected_blocks = m.protected_blocks
    ∧ (perform_incremental_cleanup m).1.get_stats = m.get_stats := by
  exact ⟨rfl, rfl, rfl⟩

/-- One client call to the memory manager: an allocation (with the
environment's `aligned_alloc` outcome) or a deallocation. -/
inductive MemOp where
  | alloc (sizeofT count : Nat) (sys : Option Nat) (context : String)
  | dealloc (ptr : Nat)
deriving DecidableEq, Repr

/-- Apply one call: a failing `allocate` throws before touching the
registry, so it leaves the state unchanged. -/
def execMemOp (m : AdvancedMemoryManager) : MemOp → AdvancedMemoryManager
  | .alloc s c sys ctx =>
    match m.allocate s c sys ctx (fun _ => (0 : Nat)) with
    | .ok r => r.2
    | .error _ => m
  | .dealloc p => m.deallocate p

/-- Run a finite sequence of calls from the initial (empty) manager. -/
def runMemOps (ops : List MemOp) : AdvancedMemoryManager :=
  ops.foldl execMemOp .empty

theorem foldl_add_size (l : List (Nat × SafeMemoryBlock)) (a : Nat) :
    l.foldl (fun acc e => acc + e.2.size) a = a + (l.map (fun e => e.2.size)).sum := by
  induction l generalizing a with
  | nil => simp
  | cons x xs ih => simp [List.foldl_cons, ih, Nat.add_assoc]

/-- **C2** (confirmed).  After any finite sequence of allocate/deallocate
calls, `get_stats` reports `total_allocated` equal to the sum of the byte
sizes of the currently registered blocks and `block_count` equal to their
number; and `deallocate` of an address not present in the registry returns
the registry unchanged. -/
theorem memory_stats_match_registry (ops : List MemOp) (p : Nat)
    (h : ∀ e ∈ (runMemOps ops).protected_blocks, e.1 ≠ p) :
    (runMemOps ops).get_stats.total_allocated
        = ((runMemOps ops).protected_blocks.map (fun e => e.2.size)).sum
    ∧ (runMemOps ops).get_stats.block_count = (runMemOps ops).protected_blocks.length
    ∧ (runMemOps ops).deallocate p = runMemOps ops := by
  refine ⟨?_, rfl, ?_⟩
  · simpa [AdvancedMemoryManager.get_stats] using
      foldl_add_size (runMemOps ops).protected_blocks 0
  · unfold AdvancedMemoryManager.deallocate
    rw [List.eraseP_of_forall_not]
    · intro e he
      simpa using h e he

/-- A concrete run for the C2 witness: two successful allocations, one
failed one, a deallocation of a live address and one of a dead address. -/
def demoMemOps : List MemOp :=
  [.alloc 4 3 (some 100) "a", .alloc 8 2 none "b", .dealloc 100,
   .alloc 1 5 (some 200) "c", .dealloc 999]

/-- Witness for C2 on `demoMemOps`, with the absent address 77. -/
theorem memory_stats_match_registry_witness :
    (∀ e ∈ (runMemOps demoMemOps).protected_blocks, e.1 ≠ 77)
    ∧ ((runMemOps demoMemOps).get_stats.total_allocated
          = ((runMemOps demoMemOps).protected_blocks.map (fun e => e.2.size)).sum
       ∧ (runMemOps demoMemOps).get_stats.block_count
          = (runMemOps demoMemOps).protected_blocks.length
       ∧ (runMemOps demoMemOps).deallocate 77 = runMemOps demoMemOps) :=
  ⟨by decide, memory_stats_match_registry demoMemOps 77 (by decide)⟩

/-- Fixture cell for the shared-state witnesses. -/
def demoCell : ProtectedSharedState Nat := { data := 10 }

/-- **C4** (corrected — counterexample).  The claim says a normally
returning `safe_write` increases the write counter by one.  On the cell
`demoCell` and a writer that returns normally, the counter reported by
`stats()` after the call is *not* the value before plus one: `safe_write`
increments `write_count` on entry and decrements it again before
returning. -/
theorem safe_write_counter_counterexample :
    ((fun d => ((Except.ok (d + 1) : Except HerLangError Nat), d + 1)) demoCell.data).1
        = Except.ok 11
    ∧ ¬ (((demoCell.safe_write (fun d => (Except.ok (d + 1), d + 1))).2.get_stats 0).total_writes
          = (demoCell.get_stats 0).total_writes + 1) := by
  exact ⟨rfl, by decide⟩

/-- **C4** (corrected — amended claim).  Every `safe_write` call — whether
the writer returns normally or throws — leaves the write counter reported
by `get_stats` unchanged: the counter is incremented on entry and
decremented on every exit path, while the data takes the writer's final
value. -/
theorem safe_write_preserves_write_count (c : ProtectedSharedState α)
    (writer : α → Except HerLangError β × α) (now : Nat) :
    ((c.safe_write writer).2.get_stats now).total_writes
        = (c.get_stats now).total_writes
    ∧ (c.safe_write writer).2.write_count = c.write_count
    ∧ (c.safe_write writer).2.data = (writer c.data).2 := by
  unfold ProtectedSharedState.safe_write
  rcases h : writer c.data with ⟨r, d⟩
  cases r <;> simp [ProtectedSharedState.get_stats, h]

/-- **C10** (confirmed).  If the reader passed to `safe_read` throws, the
exception propagates and the read counter reported by `stats()` is
unchanged; if it returns normally, the counter ends exactly one greater —
the trailing decrement in the source is unreachable on the normal path, so
the counter records successful reads, not in-flight readers. -/
theorem safe_read_counter_spec (c : ProtectedSharedState α)
    (reader : α → Except HerLangError β) (now : Nat) :
    (∀ e, reader c.data = .error e →
        (c.safe_read reader).1 = .error e
        ∧ ((c.safe_read reader).2.get_stats now).total_reads
            = (c.get_stats now).total_reads)
    ∧ (∀ b, reader c.data = .ok b →
        (c.safe_read reader).1 = .ok b
        ∧ ((c.safe_read reader).2.get_stats now).total_reads
            = (c.get_stats now).total_reads + 1) := by
  constructor
  · intro e he
    simp [ProtectedSharedState.safe_read, ProtectedSharedState.get_stats, he]
  · intro b hb
    simp [ProtectedSharedState.safe_read, ProtectedSharedState.get_stats, hb]

/-- Witness for C10 at `demoCell`: a throwing reader leaves the counter at
0, a normal reader takes it to 1. -/
theorem safe_read_counter_spec_witness :
    ((demoCell.safe_read (fun _ => (Except.error outOfBoundsError : Except HerLangError Nat))).2.get_stats 0).total_reads
        = (demoCell.get_stats 0).total_reads
    ∧ ((demoCell.safe_read (fun d => Except.ok (d * 2))).2.get_stats 0).total_reads
        = (demoCell.get_stats 0).total_reads + 1 := by
  exact ⟨((safe_read_counter_spec demoCell _ 0).1 outOfBoundsError rfl).2,
         ((safe_read_counter_spec demoCell _ 0).2 20 rfl).2⟩

/-- **C7** (confirmed).  With no concurrent mutation (the interference
function is the identity), `optimistic_update` with the default three
retries commits on its first attempt, returns `true`, and leaves the
cell's value `fn(old_value)` (and the write counter incremented, as the
commit path does). -/
theorem optimistic_update_no_contention [DecidableEq α]
    (c : ProtectedSharedState α) (fn : α → α) (interf : Nat → α → α)
    (h : ∀ n x, interf n x = x) :
    c.optimistic_update fn interf 3
      = ((true, 1), { c with data := fn c.data, write_count := c.write_count + 1 }) := by
  simp [ProtectedSharedState.optimistic_update, optimisticLoop, h]

/-- Witness for C7: updating `demoCell` (value 10) by `+ 5` with identity
interference commits in one attempt and stores 15. -/
theorem optimistic_update_no_contention_witness :
    demoCell.optimistic_update (fun d => d + 5) (fun _ x => x) 3
      = ((true, 1), { demoCell with data := 10 + 5, write_count := demoCell.write_count + 1 }) :=
  optimistic_update_no_contention demoCell (fun d => d + 5) (fun _ x => x) (fun _ _ => rfl)

/-- **C6** (confirmed).  `try_assign_task` returns `false` and leaves the
worker (in particular its queue) unchanged exactly when the worker needs a
mandatory break — consecutive tasks ≥ 50, time since the last rest ≥ 2
hours, or stress ≥ 0.8 — and otherwise enqueues the task and returns
`true`.  A worker with 50 consecutive completed tasks refuses every
assignment, completing further tasks cannot bring the counter back below
50, and only a wellness break resets it. -/
theorem try_assign_wellness_gate (w : CooperativeWorker) (t : Nat) :
    ((w.try_assign_task t).1 = false
        ↔ (MAX_CONSECUTIVE_TASKS ≤ w.consecutive_tasks
           ∨ MAX_WORK_DURATION ≤ w.work_duration
           ∨ MAX_STRESS_LEVEL ≤ w.stress_level))
    ∧ ((w.try_assign_task t).1 = false → (w.try_assign_task t).2 = w)
    ∧ ((w.try_assign_task t).1 = true →
        (w.try_assign_task t).2 = { w with queue := w.queue ++ [t] })
    ∧ (MAX_CONSECUTIVE_TASKS ≤ w.consecutive_tasks →
        (w.try_assign_task t).1 = false
        ∧ MAX_CONSECUTIVE_TASKS ≤ w.record_task_completion.consecutive_tasks
        ∧ w.take_wellness_break.consecutive_tasks = 0) := by
  have hb : w.needs_mandatory_break = true
      ↔ (MAX_CONSECUTIVE_TASKS ≤ w.consecutive_tasks
         ∨ MAX_WORK_DURATION ≤ w.work_duration
         ∨ MAX_STRESS_LEVEL ≤ w.stress_level) := by
    simp [CooperativeWorker.needs_mandatory_break, or_assoc]
  refine ⟨?_, ?_, ?_, ?_⟩
  · rw [← hb]
    unfold CooperativeWorker.try_assign_task
    cases h : w.needs_mandatory_break <;> simp [h]
  · unfold CooperativeWorker.try_assign_task
    cases h : w.needs_mandatory_break <;> simp [h]
  · unfold CooperativeWorker.try_assign_task
    cases h : w.needs_mandatory_break <;> simp [h]
  · intro hc
    refine ⟨?_, ?_, rfl⟩
    · unfold CooperativeWorker.try_assign_task
      have : w.needs_mandatory_break = true := hb.mpr (Or.inl hc)
      simp [this]
    · exact Nat.le_succ_of_le (by
        simpa [CooperativeWorker.record_task_completion] using hc)

/-- The tired worker for the C6 witness: 50 consecutive tasks done. -/
def tiredWorker : CooperativeWorker := { consecutive_tasks := 50 }

/-- Witness for C6: the tired worker refuses an assignment and stays
unchanged, a completion keeps it at ≥ 50, a break resets the counter, and
a fresh worker accepts and enqueues. -/
theorem try_assign_wellness_gate_witness :
    ((tiredWorker.try_assign_task 7).1 = false
     ∧ MAX_CONSECUTIVE_TASKS ≤ tiredWorker.record_task_completion.consecutive_tasks
     ∧ tiredWorker.take_wellness_break.consecutive_tasks = 0)
    ∧ (({} : CooperativeWorker).try_assign_task 7).2
        = { ({} : CooperativeWorker) with queue := [7] } := by
  refine ⟨(try_assign_wellness_gate tiredWorker 7).2.2.2 (by decide), ?_⟩
  exact (try_assign_wellness_gate {} 7).2.2.1 (by decide)

/-- A worker whose stress (0.7) is above the pool threshold 0.6 but below
the mandatory-break level 0.8. -/
def stressedWorker : CooperativeWorker := { stress_level := mkRat 7 10 }

/-- A pool whose only worker is above the stress threshold. -/
def stressedPool : CooperativeThreadPool := { workers := [stressedWorker] }

/-- **C3** (corrected — counterexample).  The claim says that when every
worker's stress is above 0.6, `submit_with_care` fails with the Runtime
"overwhelmed" error and enqueues nothing.  On `stressedPool` — one worker
with stress 0.7 — every worker is above 0.6, yet the submission succeeds
and the task is enqueued: `find_optimal_worker` falls back to round-robin
instead of returning no worker. -/
theorem submit_overwhelmed_counterexample :
    (∀ w ∈ stressedPool.workers, STRESS_THRESHOLD < w.stress_level)
    ∧ (stressedPool.submit_with_care 42).1 = Except.ok ()
    ∧ ((stressedPool.submit_with_care 42).2.workers.map CooperativeWorker.queue)
        = [[42]] := by
  exact ⟨by decide, rfl, rfl⟩

theorem findBestWorkerAux_all_stressed {ws : List CooperativeWorker}
    (h : ∀ w ∈ ws, ¬ w.stress_level < STRESS_THRESHOLD) :
    ∀ i best lowest, findBestWorkerAux ws i best lowest = best := by
  induction ws with
  | nil => intro i best lowest; rfl
  | cons w ws ih =>
    intro i best lowest
    have hw : ¬ w.stress_level < STRESS_THRESHOLD := h w (by simp)
    unfold findBestWorkerAux
    rw [if_neg (by tauto)]
    exact ih (fun x hx => h x (by simp [hx])) _ _ _

theorem find_optimal_all_stressed (p : CooperativeThreadPool)
    (h1 : ∀ w ∈ p.workers, STRESS_THRESHOLD < w.stress_level)
    (h2 : p.workers ≠ []) :
    p.find_optimal_worker = (some (p.round_robin_counter % p.workers.length),
      { p with round_robin_counter := p.round_robin_counter + 1 }) := by
  have hempty : p.workers.isEmpty = false := by
    cases hw : p.workers with
    | nil => exact absurd hw h2
    | cons a l => rfl
  unfold CooperativeThreadPool.find_optimal_worker findBestWorker
  rw [findBestWorkerAux_all_stressed (fun w hw => not_lt_of_gt (h1 w hw)) 0 none 1,
      hempty]
  rfl

/-- **C3** (corrected — amended claim).  In a pool with at least one
worker where every worker's stress is above 0.6, `submit_with_care` never
fails with the Runtime "overwhelmed" error (that error requires an empty
pool): the dispatcher falls back to round-robin, and the submission either
fails with the Runtime "wellness break" error — enqueueing nothing — when
the selected worker needs a mandatory break, or enqueues the task on that
worker and succeeds. -/
theorem submit_all_stressed_fallback (p : CooperativeThreadPool) (t : Nat)
    (h1 : ∀ w ∈ p.workers, STRESS_THRESHOLD < w.stress_level)
    (h2 : p.workers ≠ []) :
    ((p.submit_with_care t).1 ≠ .error overwhelmedError)
    ∧ ((p.workers.getD (p.round_robin_counter % p.workers.length) {}).needs_mandatory_break
          = true →
        p.submit_with_care t
          = (.error wellnessRefusedError,
             { p with round_robin_counter := p.round_robin_counter + 1 }))
    ∧ ((p.workers.getD (p.round_robin_counter % p.workers.length) {}).needs_mandatory_break
          = false →
        p.submit_with_care t
          = (.ok (),
             { p with
                 round_robin_counter := p.round_robin_counter + 1
                 workers := p.workers.set (p.round_robin_counter % p.workers.length)
                   { p.workers.getD (p.round_robin_counter % p.workers.length) {} with
                     queue := (p.workers.getD
                         (p.round_robin_counter % p.workers.length) {}).queue ++ [t] } })) := by
  have hf := find_optimal_all_stressed p h1 h2
  unfold CooperativeThreadPool.submit_with_care
  rw [hf]
  simp only [List.getD_eq_getElem?_getD]
  cases hnb : ((p.workers[p.round_robin_counter % p.workers.length]?).getD
      ({} : CooperativeWorker)).needs_mandatory_break with
  | false =>
    simp [CooperativeWorker.try_assign_task, hnb]
  | true =>
    simp only [CooperativeWorker.try_assign_task, hnb]
    refine ⟨by simp; decide, fun _ => by simp, fun hfalse => by simp at hfalse⟩

/-- A two-worker pool, both above the stress threshold (0.7 and 0.9),
neither needing a mandatory break. -/
def stressedPool2 : CooperativeThreadPool :=
  { workers := [stressedWorker, { stress_level := mkRat 9 10 }] }

/-- Witness for the amended C3: on `stressedPool2` the round-robin
fallback picks worker 0 and the submission enqueues the task there. -/
theorem submit_all_stressed_fallback_witness :
    (∀ w ∈ stressedPool2.workers, STRESS_THRESHOLD < w.stress_level)
    ∧ stressedPool2.submit_with_care 5
        = (.ok (), { stressedPool2 with
            round_robin_counter := 1
            workers := [{ stressedWorker with queue := [5] },
                        { stress_level := mkRat 9 10 }] }) := by
  refine ⟨by decide, ?_⟩
  have h := (submit_all_stressed_fallback stressedPool2 5 (by decide) (by decide)).2.2
    (by decide)
  simpa using h

/-- The registry with lock names registered in order A (level 0) then B
(level 1). -/
def registryAB : DeadlockPrevention :=
  (DeadlockPrevention.register_lock_type {} "A").register_lock_type "B"

theorem registryAB_eq :
    registryAB = { lock_hierarchy := [("B", 1), ("A", 0)], next_hierarchy_level := 2 } := by
  rfl

/-- **C8** (confirmed).  With A registered before B (levels 0 and 1), any
thread holding no locks may acquire A (`can_acquire_safely` answers
`true`); after registering the acquisition of A it may acquire B; but a
thread that has registered the acquisition of B is refused A, since it
holds a lock of a higher hierarchy level. -/
theorem lock_hierarchy_scenario (tid : Nat) :
    (registryAB.can_acquire_safely tid "A").1 = true
    ∧ ((registryAB.register_lock_acquisition tid "A").can_acquire_safely tid "B").1 = true
    ∧ ((registryAB.register_lock_acquisition tid "B").can_acquire_safely tid "A").1 = false := by
  refine ⟨rfl, ?_, ?_⟩ <;>
    simp [registryAB_eq, DeadlockPrevention.can_acquire_safely,
          DeadlockPrevention.register_lock_acquisition,
          DeadlockPrevention.register_lock_type,
          DeadlockPrevention.would_create_cycle, pushHeldLock, List.lookup]

end HerLang
